import Mathlib

/-!
# Verification of the KeeplyBot chat widget (stormozov/keeply-web-bot)

Shallow embedding of the repository's TypeScript sources:

* `src/ts/KeeplyBot/api/api.ts` — the transport (`fetchCapabilities`,
  `fetchMessages`);
* `src/ts/KeeplyBot/KeeplyBot.ts` and the attachment-capable variant — the
  chat controller (`updateUiCapabilities`, `_updateElementState`,
  `_updateSendButtonState`, `_handleChatFormSubmit`, the file-picker change
  handler, `_renderAttachmentsPreview`);
* `src/ts/utils/TooltipManager.ts` — the tooltip manager
  (`_handleMouseOver`, `_handleMouseOut`, `_handleMouseMove`,
  `_hideTooltip`).

DOM element state is modelled as an attribute map (`String → Option String`,
mirroring `getAttribute`/`setAttribute`/`removeAttribute`/`hasAttribute`)
plus an ordered class list (mirroring `classList`).  Fallible paths
(promise rejections / thrown `TypeError`s) are modelled with `Option`.
JavaScript numbers that the code only compares and offsets are modelled as
`Int`.
-/

/-! ## DOM element model -/

/-- The attribute/class state of one DOM element, as observed through
`getAttribute` / `classList`. -/
structure ElementState where
  attrs : String → Option String
  classes : List String

/-- `element.setAttribute(k, v)`. -/
def setAttr (e : ElementState) (k v : String) : ElementState :=
  { e with attrs := fun x => if x = k then some v else e.attrs x }

/-- `element.removeAttribute(k)`. -/
def removeAttr (e : ElementState) (k : String) : ElementState :=
  { e with attrs := fun x => if x = k then none else e.attrs x }

/-- `element.classList.add(c)`: appends the token if absent. -/
def addClass (e : ElementState) (c : String) : ElementState :=
  { e with classes := if c ∈ e.classes then e.classes else e.classes ++ [c] }

/-- `element.classList.remove(c)`: removes the token. -/
def removeClass (e : ElementState) (c : String) : ElementState :=
  { e with classes := e.classes.filter (fun x => x != c) }

/-- An element with no attributes and no classes. -/
def blankElement : ElementState := { attrs := fun _ => none, classes := [] }

/-! ## Capability settings (`ICapabilitiesElementSettings`, runtime-permissive)

The TypeScript interface declares every field, but the code reaches these
values straight from a JSON payload, so each field may be absent at runtime;
absent fields are modelled with `Option` (`none` = `undefined`).
`hasTooltip` is only used for its truthiness, so it collapses to `Bool`. -/

structure CapSettings where
  availableState : Option String
  limit : Option Int
  types : Option (List String)
  hasTooltip : Bool
  tooltip : Option String

/-- One character of `JSON.stringify` output for a string value. -/
def jsonEscapeChar (c : Char) : String :=
  if c = '"' then "\\\"" else if c = '\\' then "\\\\" else String.singleton c

/-- `JSON.stringify` of a single string (quotes and escapes). -/
def jsonQuote (s : String) : String :=
  "\"" ++ String.join (s.data.map jsonEscapeChar) ++ "\""

/-- `JSON.stringify` of an array of strings. -/
def jsonStringifyStrings (l : List String) : String :=
  "[" ++ String.intercalate "," (l.map jsonQuote) ++ "]"

/-- First statement of `_updateElementState`:
`isEnabled ? element.removeAttribute('disabled') : element.setAttribute('disabled', 'true')`
with `isEnabled = (config.availableState === 'true')`. -/
def applyDisabled (config : CapSettings) (e : ElementState) : ElementState :=
  if config.availableState = some "true" then removeAttr e "disabled"
  else setAttr e "disabled" "true"

/-- Second statement of `_updateElementState`: tooltip marker class and
`data-tooltip` attribute (`config.tooltip || ''`). -/
def applyTooltip (config : CapSettings) (e : ElementState) : ElementState :=
  if config.hasTooltip then
    setAttr (addClass e "has-tooltip") "data-tooltip" (config.tooltip.getD "")
  else
    removeAttr (removeClass e "has-tooltip") "data-tooltip"

/-- Third statement of `_updateElementState`: `data-limit`, set iff
`typeof config.limit !== 'undefined'`. -/
def applyLimit (config : CapSettings) (e : ElementState) : ElementState :=
  match config.limit with
  | some n => setAttr e "data-limit" (toString n)
  | none => removeAttr e "data-limit"

/-- Fourth statement of `_updateElementState`: `data-types`, set iff
`Array.isArray(config.types) && config.types.length > 0`. -/
def applyTypes (config : CapSettings) (e : ElementState) : ElementState :=
  match config.types with
  | some ts =>
      if 0 < ts.length then setAttr e "data-types" (jsonStringifyStrings ts)
      else removeAttr e "data-types"
  | none => removeAttr e "data-types"

/-- `KeeplyBot._updateElementState(element, config)`: applies one capability
settings object to one element — disabled marker, tooltip class/attribute,
`data-limit`, `data-types` — exactly in the source's order. -/
def updateElementState (element : ElementState) (config : CapSettings) : ElementState :=
  applyTypes config (applyLimit config (applyTooltip config (applyDisabled config element)))

/-- The value the update leaves under the `disabled` attribute. -/
def disabledAttrVal (config : CapSettings) : Option String :=
  if config.availableState = some "true" then none else some "true"

/-- The value the update leaves under `data-tooltip`. -/
def tooltipAttrVal (config : CapSettings) : Option String :=
  if config.hasTooltip then some (config.tooltip.getD "") else none

/-- The value the update leaves under `data-limit`. -/
def limitAttrVal (config : CapSettings) : Option String :=
  match config.limit with
  | some n => some (toString n)
  | none => none

/-- The value the update leaves under `data-types`. -/
def typesAttrVal (config : CapSettings) : Option String :=
  match config.types with
  | some ts => if 0 < ts.length then some (jsonStringifyStrings ts) else none
  | none => none

theorem ElementState.eq_of {a b : ElementState} (h1 : a.attrs = b.attrs)
    (h2 : a.classes = b.classes) : a = b := by
  cases a
  cases b
  cases h1
  cases h2
  rfl

theorem setAttr_attrs (e : ElementState) (k v x : String) :
    (setAttr e k v).attrs x = if x = k then some v else e.attrs x := rfl

theorem removeAttr_attrs (e : ElementState) (k x : String) :
    (removeAttr e k).attrs x = if x = k then none else e.attrs x := rfl

theorem addClass_attrs (e : ElementState) (c : String) : (addClass e c).attrs = e.attrs := rfl

theorem removeClass_attrs (e : ElementState) (c : String) :
    (removeClass e c).attrs = e.attrs := rfl

theorem setAttr_classes (e : ElementState) (k v : String) :
    (setAttr e k v).classes = e.classes := rfl

theorem removeAttr_classes (e : ElementState) (k : String) :
    (removeAttr e k).classes = e.classes := rfl

theorem applyDisabled_attrs (config : CapSettings) (e : ElementState) (k : String) :
    (applyDisabled config e).attrs k =
      if k = "disabled" then disabledAttrVal config else e.attrs k := by
  unfold applyDisabled
  split_ifs with h <;> simp [removeAttr_attrs, setAttr_attrs, disabledAttrVal, h] <;> tauto

theorem applyTooltip_attrs (config : CapSettings) (e : ElementState) (k : String) :
    (applyTooltip config e).attrs k =
      if k = "data-tooltip" then tooltipAttrVal config else e.attrs k := by
  unfold applyTooltip
  split_ifs with h <;>
    simp [setAttr_attrs, removeAttr_attrs, addClass_attrs, removeClass_attrs,
      tooltipAttrVal, h] <;> tauto

theorem applyLimit_attrs (config : CapSettings) (e : ElementState) (k : String) :
    (applyLimit config e).attrs k =
      if k = "data-limit" then limitAttrVal config else e.attrs k := by
  unfold applyLimit limitAttrVal
  cases config.limit <;> simp [setAttr_attrs, removeAttr_attrs]

theorem applyTypes_attrs (config : CapSettings) (e : ElementState) (k : String) :
    (applyTypes config e).attrs k =
      if k = "data-types" then typesAttrVal config else e.attrs k := by
  unfold applyTypes typesAttrVal
  cases config.types with
  | none => simp [removeAttr_attrs]
  | some ts =>
    dsimp only
    split_ifs with h <;> simp [setAttr_attrs, removeAttr_attrs, h] <;> tauto

theorem updateElementState_attrs (element : ElementState) (config : CapSettings)
    (k : String) :
    (updateElementState element config).attrs k =
      if k = "data-types" then typesAttrVal config
      else if k = "data-limit" then limitAttrVal config
      else if k = "data-tooltip" then tooltipAttrVal config
      else if k = "disabled" then disabledAttrVal config
      else element.attrs k := by
  unfold updateElementState
  rw [applyTypes_attrs, applyLimit_attrs, applyTooltip_attrs, applyDisabled_attrs]

theorem applyDisabled_classes (config : CapSettings) (e : ElementState) :
    (applyDisabled config e).classes = e.classes := by
  unfold applyDisabled
  split_ifs <;> rfl

theorem applyLimit_classes (config : CapSettings) (e : ElementState) :
    (applyLimit config e).classes = e.classes := by
  unfold applyLimit
  cases config.limit <;> rfl

theorem applyTypes_classes (config : CapSettings) (e : ElementState) :
    (applyTypes config e).classes = e.classes := by
  unfold applyTypes
  cases config.types with
  | none => rfl
  | some ts =>
    dsimp only
    split_ifs <;> rfl

theorem applyTooltip_classes (config : CapSettings) (e : ElementState) :
    (applyTooltip config e).classes =
      if config.hasTooltip then
        (if "has-tooltip" ∈ e.classes then e.classes else e.classes ++ ["has-tooltip"])
      else e.classes.filter (fun x => x != "has-tooltip") := by
  unfold applyTooltip addClass removeClass
  split_ifs <;> rfl

theorem updateElementState_classes (element : ElementState) (config : CapSettings) :
    (updateElementState element config).classes =
      if config.hasTooltip then
        (if "has-tooltip" ∈ element.classes then element.classes
         else element.classes ++ ["has-tooltip"])
      else element.classes.filter (fun x => x != "has-tooltip") := by
  unfold updateElementState
  rw [applyTypes_classes, applyLimit_classes, applyTooltip_classes, applyDisabled_classes]

theorem filterNe_idem (cs : List String) (c : String) :
    (cs.filter (fun x => x != c)).filter (fun x => x != c) = cs.filter (fun x => x != c) := by
  induction cs with
  | nil => rfl
  | cons hd tl ih =>
    by_cases h : hd = c
    · subst h
      simp [List.filter_cons, ih]
    · simp [List.filter_cons, bne_iff_ne, h, ih]

/-- Applying the same settings twice leaves the element exactly as one
application does. -/
theorem updateElementState_idem (element : ElementState) (config : CapSettings) :
    updateElementState (updateElementState element config) config =
      updateElementState element config := by
  have hattrs : ∀ k, (updateElementState (updateElementState element config) config).attrs k =
      (updateElementState element config).attrs k := by
    intro k
    simp only [updateElementState_attrs]
    split_ifs <;> rfl
  have hclasses : (updateElementState (updateElementState element config) config).classes =
      (updateElementState element config).classes := by
    simp only [updateElementState_classes]
    split_ifs <;> simp_all [filterNe_idem]
  exact ElementState.eq_of (funext hattrs) hclasses

/-! ## Registry and reconciliation (`updateUiCapabilities`)

`_botUi` maps category names to element keys to a nullable DOM element
(`querySelector` result).  Capability categories are looked up by name in
the fetched descriptor; a missing category or missing per-key settings is
skipped, as is a `null` element.  Registry slots are modelled as owning
their element state (the fixed selectors of `_botUi` address distinct
elements). -/

abbrev Registry := List (String × List (String × Option ElementState))

/-- A capability descriptor as the loops observe it: category name to
(element key to settings), either level possibly absent. -/
abbrev Descriptor := String → Option (String → Option CapSettings)

/-- Body of the inner loop of `updateUiCapabilities`: update the slot's
element when both the element and its settings exist (`if (element && config)`). -/
def reconcileSlot (capCategory : String → Option CapSettings)
    (slot : String × Option ElementState) : String × Option ElementState :=
  match slot.2, capCategory slot.1 with
  | some element, some config => (slot.1, some (updateElementState element config))
  | _, _ => slot

/-- Body of the outer loop: skip the category when the descriptor lacks it
(`if (!capCategory || typeof capCategory !== 'object') continue`). -/
def reconcileCategory (capabilities : Descriptor)
    (cat : String × List (String × Option ElementState)) :
    String × List (String × Option ElementState) :=
  match capabilities cat.1 with
  | none => cat
  | some capCategory => (cat.1, cat.2.map (reconcileSlot capCategory))

/-- The nested loop of `KeeplyBot.updateUiCapabilities` (the spec's
`reconcile(registry, descriptor)`). -/
def reconcile (registry : Registry) (capabilities : Descriptor) : Registry :=
  registry.map (reconcileCategory capabilities)

theorem reconcileSlot_idem (capCategory : String → Option CapSettings)
    (slot : String × Option ElementState) :
    reconcileSlot capCategory (reconcileSlot capCategory slot) =
      reconcileSlot capCategory slot := by
  rcases slot with ⟨key, eopt⟩
  cases eopt with
  | none => rfl
  | some element =>
    cases hc : capCategory key with
    | none => simp [reconcileSlot, hc]
    | some config => simp [reconcileSlot, hc, updateElementState_idem]

theorem reconcileCategory_idem (capabilities : Descriptor)
    (cat : String × List (String × Option ElementState)) :
    reconcileCategory capabilities (reconcileCategory capabilities cat) =
      reconcileCategory capabilities cat := by
  rcases cat with ⟨name, slots⟩
  cases hc : capabilities name with
  | none => simp [reconcileCategory, hc]
  | some capCategory =>
    simp only [reconcileCategory, hc]
    rw [List.map_map]
    congr 1
    apply List.map_congr_left
    intro slot _
    exact reconcileSlot_idem capCategory slot

/-! ## Transport (`api.ts`)

A fetch outcome is `none` for a network failure (the `catch` path) and
`some response` otherwise; `response.jsonBody` is `none` when the body does
not parse as JSON (`response.json()` rejects). -/

structure HttpResponse (β : Type) where
  ok : Bool
  jsonBody : Option β

/-- `IUserMessageCard.files` entries, as used by the renderer. -/
structure MessageFile where
  url : String
  originalname : String
  mimetype : String
  size : Int

/-- `IUserMessageCard`. -/
structure UserMessageCard where
  id : String
  message : String
  timestamp : Int
  files : List MessageFile

/-- `IMessagingCapabilities`; fields may be absent in a raw payload. -/
structure MessagingCaps where
  sendText : Option CapSettings
  sendAttachments : Option CapSettings

/-- `ISearchCapabilities`. -/
structure SearchCaps where
  searchMessages : Option CapSettings

/-- `IUiCapabilities`. -/
structure UiCaps where
  buttonHelp : Option CapSettings
  buttonFavorites : Option CapSettings
  buttonAttachments : Option CapSettings
  buttonSettings : Option CapSettings

/-- `IBotCapabilities`; each category may be absent (in particular in the
empty object `{}` the failure paths produce). -/
structure BotCapabilities where
  messaging : Option MessagingCaps
  search : Option SearchCaps
  ui : Option UiCaps

/-- The `{} as IBotCapabilities` value returned on the failure paths. -/
def emptyCapabilities : BotCapabilities := { messaging := none, search := none, ui := none }

/-- `fetchCapabilities()`: returns `{}` on network failure or a non-2xx
status; on an ok status it returns the parsed body.  (`return
response.json()` is not awaited inside the `try`, so a body that fails to
parse rejects the promise — modelled by the outer `none`.) -/
def fetchCapabilities (result : Option (HttpResponse BotCapabilities)) :
    Option BotCapabilities :=
  match result with
  | none => some emptyCapabilities
  | some response => if !response.ok then some emptyCapabilities else response.jsonBody

/-- `fetchMessages()`: `messages = []`, then `if (!response.ok) messages = []`
(immediately overwritten), then `messages = await response.json()`; any
rejection inside the `try` is caught and yields `[]`. -/
def fetchMessages (result : Option (HttpResponse (List UserMessageCard))) :
    List UserMessageCard :=
  match result with
  | none => []
  | some response =>
    match response.jsonBody with
    | some parsed => parsed
    | none => []

/-- JavaScript property lookup on an `IBotCapabilities` object by the
registry's category and key names, as `updateUiCapabilities` performs it. -/
def capsToDescriptor (c : BotCapabilities) : Descriptor := fun category =>
  if category = "ui" then
    c.ui.map (fun u => fun key =>
      if key = "buttonHelp" then u.buttonHelp
      else if key = "buttonFavorites" then u.buttonFavorites
      else if key = "buttonAttachments" then u.buttonAttachments
      else if key = "buttonSettings" then u.buttonSettings
      else none)
  else if category = "messaging" then
    c.messaging.map (fun m => fun key =>
      if key = "sendText" then m.sendText
      else if key = "sendAttachments" then m.sendAttachments
      else none)
  else if category = "search" then
    c.search.map (fun s => fun key =>
      if key = "searchMessages" then s.searchMessages
      else none)
  else none

/-- `updateUiCapabilities` of the plain variant (`KeeplyBot.ts`): just the
nested reconciliation loop. -/
def updateUiCapabilitiesSimple (capabilities : BotCapabilities) (registry : Registry) :
    Registry :=
  reconcile registry (capsToDescriptor capabilities)

/-- `this._botUi.messaging.sendAttachments` in the registry model. -/
def registryGet (registry : Registry) (cat key : String) : Option ElementState :=
  match registry.find? (fun ce => ce.1 = cat) with
  | some ce => ((ce.2.find? (fun ke => ke.1 = key)).map (fun ke => ke.2)).join
  | none => none

/-- `_setSendAttachmentsAttributes(config)` of the attachment variant:
no-op when the element is `null`; throws a `TypeError` (modelled `none`)
when the element exists but `config` is `undefined`, since
`_updateElementState` dereferences `config.availableState`. -/
def setSendAttachmentsAttributes (registry : Registry) (config : Option CapSettings) :
    Option Registry :=
  match registryGet registry "messaging" "sendAttachments" with
  | none => some registry
  | some element =>
    match config with
    | none => none
    | some c =>
      some (registry.map (fun ce =>
        if ce.1 = "messaging" then
          (ce.1, ce.2.map (fun ke =>
            if ke.1 = "sendAttachments" then (ke.1, some (updateElementState element c))
            else ke))
        else ce))

/-- `updateUiCapabilities` of the attachment variant: the reconciliation
loop followed by
`this._setSendAttachmentsAttributes(capabilities.messaging.sendAttachments)`;
the property chain throws a `TypeError` (modelled `none`) when
`capabilities.messaging` is absent — as it is in the empty descriptor. -/
def updateUiCapabilitiesAttach (capabilities : BotCapabilities) (registry : Registry) :
    Option Registry :=
  let reconciled := reconcile registry (capsToDescriptor capabilities)
  match capabilities.messaging with
  | none => none
  | some m => setSendAttachmentsAttributes reconciled m.sendAttachments

/-! ## Send button state (`_updateSendButtonState`, `_handleChatFormSubmit`) -/

/-- The textarea value and send-button disabled flag tracked by the chat
controller. -/
structure ChatFormState where
  textareaValue : String
  sendDisabled : Bool

/-- `_updateSendButtonState()`: `disabled = (textarea.value.trim().length === 0)`. -/
def updateSendButtonState (s : ChatFormState) : ChatFormState :=
  { s with sendDisabled := s.textareaValue.trim.length == 0 }

/-- The events that end in `_updateSendButtonState`: a textarea `input`
event (the textarea now holds `newValue`), and a form `submit`
(`sendMessage` succeeded or failed; either way `form.reset()` restores the
textarea's default value and then the button state is recomputed). -/
inductive ChatEvent where
  | input (newValue : String)
  | submit (resetValue : String) (sendSucceeded : Bool)

/-- One step of the send-button state machine: `_handleTextareaInput` /
`_handleChatFormSubmit` as far as the textarea and send button are
concerned (rendering and logging touch neither). -/
def chatStep (s : ChatFormState) (event : ChatEvent) : ChatFormState :=
  match event with
  | .input newValue => updateSendButtonState { s with textareaValue := newValue }
  | .submit resetValue _ => updateSendButtonState { s with textareaValue := resetValue }

theorem string_length_eq_zero_iff (s : String) : s.length = 0 ↔ s = "" := by
  rcases s with ⟨data⟩
  constructor
  · intro h
    cases data with
    | nil => rfl
    | cons a l => simp [String.length] at h
  · intro h
    rw [h]
    rfl

/-! ## Attachment selection (`_handleAttachButtonClick` change listener,
`_renderAttachmentsPreview`) -/

/-- Leading digits of a character list as a number. -/
def digitsToNat (l : List Char) : Nat :=
  l.foldl (fun acc c => 10 * acc + (c.toNat - 48)) 0

/-- `parseInt(s, 10)`: skip leading whitespace, optional sign, then leading
digits; `none` models `NaN`. -/
def jsParseInt (s : String) : Option Int :=
  let cs := s.data.dropWhile Char.isWhitespace
  match cs with
  | '-' :: rest =>
    if (rest.takeWhile Char.isDigit).isEmpty then none
    else some (-(digitsToNat (rest.takeWhile Char.isDigit) : Int))
  | '+' :: rest =>
    if (rest.takeWhile Char.isDigit).isEmpty then none
    else some (digitsToNat (rest.takeWhile Char.isDigit) : Int)
  | _ =>
    if (cs.takeWhile Char.isDigit).isEmpty then none
    else some (digitsToNat (cs.takeWhile Char.isDigit) : Int)

/-- `files.slice(0, k)`: a negative end counts from the end of the list, a
`NaN` end (handled by the caller as `none`) yields `[]`. -/
def jsSliceTo {α : Type} (files : List α) (k : Int) : List α :=
  if k < 0 then files.take (files.length - k.natAbs) else files.take k.toNat

/-- The `change` listener installed by `_handleAttachButtonClick`:
`limit = parseInt(target.getAttribute('data-limit') || '1', 10);
this._selectedFiles = files.slice(0, limit)`. -/
def handleFilesChange {α : Type} (dataLimit : Option String) (files : List α) : List α :=
  let limitStr := match dataLimit with
    | some s => if s = "" then "1" else s
    | none => "1"
  match jsParseInt limitStr with
  | some k => jsSliceTo files k
  | none => []

/-- Copying of the attach control's `data-limit` onto the hidden file input
(`if (limit) fileInput.setAttribute('data-limit', limit)`): an absent or
empty attribute is not copied. -/
def fileInputLimitAttr (attachControlLimit : Option String) : Option String :=
  match attachControlLimit with
  | some s => if s = "" then none else some s
  | none => none

/-- Number of entries `_renderAttachmentsPreview` creates: the preview is
cleared, and a single item (for `this._selectedFiles[0]`) is appended iff
the selection is non-empty. -/
def renderPreviewCount {α : Type} (selectedFiles : List α) : Nat :=
  if selectedFiles.length = 0 then 0 else 1

/-- The claim's reading of the declared limit: the parsed attribute value,
with 1 as the default when the attribute is absent. -/
def declaredLimit (dataLimit : Option String) : Option Int :=
  match dataLimit with
  | some s => jsParseInt s
  | none => some 1

/-! ## Tooltip manager (`TooltipManager.ts`)

Elements visible to the delegated listeners are identified by `Nat`; the
surrounding DOM is an environment supplying `classList.contains(targetClass)`,
`getAttribute(dataAttribute)` (with `hasAttribute = isSome`) and
`Node.contains`.  The manager state is the tracked `_currentTarget` and the
lazily created `_tooltipElement`. -/

abbrev Elem := Nat

/-- The DOM as the tooltip listeners observe it. -/
structure TooltipDomEnv where
  hasTargetClass : Elem → Bool
  attrVal : Elem → Option String
  nodeContains : Elem → Elem → Bool

/-- The floating label element: its text, visibility, position and measured
bounding-box size. -/
structure TooltipLabel where
  text : String
  visible : Bool
  left : Int
  top : Int
  width : Int
  height : Int
deriving DecidableEq

/-- `_currentTarget` and `_tooltipElement`. -/
structure TooltipState where
  currentTarget : Option Elem
  tooltipElement : Option TooltipLabel
deriving DecidableEq

/-- The freshly created label: empty, positioned at the origin, hidden. -/
def freshTooltipLabel : TooltipLabel :=
  { text := "", visible := false, left := 0, top := 0, width := 0, height := 0 }

/-- `_ensureTooltipElement()`: create the hidden label once. -/
def ensureTooltipElement (s : TooltipState) : TooltipState :=
  if s.tooltipElement.isSome then s
  else { s with tooltipElement := some freshTooltipLabel }

/-- `_hideTooltip()`: make the label invisible if it exists, and clear the
tracked target. -/
def hideTooltip (s : TooltipState) : TooltipState :=
  { s with
    tooltipElement := s.tooltipElement.map (fun label => { label with visible := false }),
    currentTarget := none }

/-- `_handleMouseOver(event)`; `target = none` models an `event.target`
that is not an `Element`. -/
def handleMouseOver (env : TooltipDomEnv) (s : TooltipState) (target : Option Elem) :
    TooltipState :=
  match target with
  | none => s
  | some t =>
    if env.hasTargetClass t && (env.attrVal t).isSome then
      let content := (env.attrVal t).getD ""
      if content = "" then s
      else
        let s1 := ensureTooltipElement { s with currentTarget := some t }
        { s1 with tooltipElement :=
            s1.tooltipElement.map (fun label => { label with text := content, visible := true }) }
    else s

/-- `_handleMouseOut(event)`; `related = none` models an
`event.relatedTarget` that is not a `Node`. -/
def handleMouseOut (env : TooltipDomEnv) (s : TooltipState) (related : Option Elem) :
    TooltipState :=
  match related with
  | none => hideTooltip s
  | some r =>
    match s.currentTarget with
    | some t => if env.nodeContains t r then s else hideTooltip s
    | none => s

/-- `_handleMouseMove(event)`: reposition the label next to the pointer,
clamped to the viewport, but only while a target is tracked and the label
exists. -/
def handleMouseMove (s : TooltipState) (pageX pageY innerWidth innerHeight : Int) :
    TooltipState :=
  match s.currentTarget, s.tooltipElement with
  | some _, some tooltip =>
    let left0 := pageX + 10
    let top0 := pageY - 8
    let left1 := if left0 + tooltip.width > innerWidth
      then innerWidth - tooltip.width - 5 else left0
    let top1 := if top0 + tooltip.height > innerHeight
      then innerHeight - tooltip.height - 5 else top0
    let left2 := if left1 < 0 then 5 else left1
    let top2 := if top1 < 0 then 5 else top1
    { s with tooltipElement := some { tooltip with left := left2, top := top2 } }
  | _, _ => s

/-- The claim's description of the repositioning: offset, right/bottom
clamp, then both coordinates floored at 5px. -/
def claimedTooltipPos (pageX pageY width height innerWidth innerHeight : Int) : Int × Int :=
  let left1 := if pageX + 10 + width > innerWidth
    then innerWidth - width - 5 else pageX + 10
  let top1 := if pageY - 8 + height > innerHeight
    then innerHeight - height - 5 else pageY - 8
  (max 5 left1, max 5 top1)

/-- Amended description: offset and right/bottom clamp as claimed, but a
coordinate is only replaced by 5 when it is negative (values in `[0, 5)`
are kept). -/
def amendedTooltipLeft (pageX width innerWidth : Int) : Int :=
  let left1 := if pageX + 10 + width > innerWidth
    then innerWidth - width - 5 else pageX + 10
  if left1 < 0 then 5 else left1

/-- Amended description for the vertical coordinate. -/
def amendedTooltipTop (pageY height innerHeight : Int) : Int :=
  let top1 := if pageY - 8 + height > innerHeight
    then innerHeight - height - 5 else pageY - 8
  if top1 < 0 then 5 else top1

/-! ## Concrete fixtures for the evaluated claims -/

/-- Registry fixture: the `_botUi` shape with live elements in every slot
that the scenarios touch. -/
def fixtureRegistry : Registry :=
  [("ui", [("buttonHelp", some blankElement)]),
   ("messaging", [("sendText", some blankElement), ("sendAttachments", some blankElement)]),
   ("search", [("searchMessages", some blankElement)])]

/-- A message card fixture for the transport claims. -/
def fixtureCard : UserMessageCard :=
  { id := "m1", message := "hello", timestamp := 0, files := [] }

/-- The settings of the C3 scenario. -/
def c3Config : CapSettings :=
  { availableState := some "false", limit := some 1, types := some [],
    hasTooltip := true, tooltip := some "Disabled" }

/-- Claim C1: every network failure or non-2xx capabilities fetch yields the
empty descriptor — that much holds — but the attachment variant's
`updateUiCapabilities` then dereferences `capabilities.messaging.sendAttachments`
and throws a `TypeError` (modelled as `none`) on that empty descriptor, so
the reconciliation does not complete without throwing. -/
theorem c1_empty_descriptor_update_throws :
    fetchCapabilities none = some emptyCapabilities ∧
    (∀ body : Option BotCapabilities,
      fetchCapabilities (some { ok := false, jsonBody := body }) = some emptyCapabilities) ∧
    updateUiCapabilitiesAttach emptyCapabilities fixtureRegistry = none :=
  ⟨rfl, fun _ => rfl, rfl⟩

/-- Claim C2: on a network failure `fetchMessages` does return `[]`, and it
does so when the body fails to parse; but on a non-2xx response whose body
parses as a JSON array the dead `messages = []` assignment is overwritten
by `messages = await response.json()`, so the parsed body — not `[]` — is
returned. -/
theorem c2_non2xx_returns_parsed_body :
    fetchMessages none = [] ∧
    fetchMessages (some { ok := false, jsonBody := none }) = [] ∧
    fetchMessages (some { ok := false, jsonBody := some [fixtureCard] }) = [fixtureCard] ∧
    fetchMessages (some { ok := false, jsonBody := some [fixtureCard] }) ≠ [] :=
  ⟨rfl, rfl, rfl, List.cons_ne_nil _ _⟩

/-- Claim C3, counterexample: with the scenario settings
`{availableState:"false", limit:1, types:[], hasTooltip:true, tooltip:"Disabled"}`
the update sets `data-limit` to `"1"` (because `limit` is defined), so the
claimed absence of a `data-limit` attribute is false. -/
theorem c3_counterexample :
    (updateElementState blankElement c3Config).attrs "data-limit" = some "1" ∧
    (updateElementState blankElement c3Config).attrs "data-limit" ≠ none := by
  decide

/-- Claim C3 as amended: the scenario leaves the disabled marker set, the
tooltip marker class added, the tooltip attribute `"Disabled"`, a
`data-limit` attribute equal to `"1"`, and no `data-types` attribute. -/
theorem c3_amended_element_state :
    (updateElementState blankElement c3Config).attrs "disabled" = some "true" ∧
    "has-tooltip" ∈ (updateElementState blankElement c3Config).classes ∧
    (updateElementState blankElement c3Config).attrs "data-tooltip" = some "Disabled" ∧
    (updateElementState blankElement c3Config).attrs "data-limit" = some "1" ∧
    (updateElementState blankElement c3Config).attrs "data-types" = none := by
  decide

/-- Claim C4: after the element-state update the disabled marker is absent
iff `availableState` is exactly the string `"true"`; any other value,
including an absent field, leaves the marker present (fail-closed). -/
theorem c4_disabled_fail_closed (element : ElementState) (config : CapSettings) :
    ((updateElementState element config).attrs "disabled" = none) ↔
      config.availableState = some "true" := by
  rw [updateElementState_attrs]
  rw [if_neg (by decide : ¬("disabled" : String) = "data-types")]
  rw [if_neg (by decide : ¬("disabled" : String) = "data-limit")]
  rw [if_neg (by decide : ¬("disabled" : String) = "data-tooltip")]
  rw [if_pos rfl]
  unfold disabledAttrVal
  split_ifs with h
  · simp [h]
  · simp [h]

/-- Claim C5: reconciliation is idempotent — applying `reconcile(R, D)`
twice yields exactly the same attribute/class state on every registry
element as applying it once. -/
theorem c5_reconcile_idem (registry : Registry) (capabilities : Descriptor) :
    reconcile (reconcile registry capabilities) capabilities =
      reconcile registry capabilities := by
  unfold reconcile
  rw [List.map_map]
  apply List.map_congr_left
  intro cat _
  exact reconcileCategory_idem capabilities cat

/-- Claim C6: after every textarea input event and after every form submit
(successful or failed, post-reset) the send button is disabled iff the
textarea's trimmed text is empty. -/
theorem c6_send_button_iff (s : ChatFormState) (event : ChatEvent) :
    (chatStep s event).sendDisabled = true ↔ (chatStep s event).textareaValue.trim = "" := by
  cases event with
  | input newValue =>
    simp [chatStep, updateSendButtonState, beq_iff_eq, string_length_eq_zero_iff]
  | submit resetValue sendSucceeded =>
    simp [chatStep, updateSendButtonState, beq_iff_eq, string_length_eq_zero_iff]

/-- Claim C7, counterexample: with a `data-limit` of `"-2"` and three
selected files, `files.slice(0, -2)` keeps the first file, so the pending
set's length (1) exceeds the declared limit (−2): the universal bound
"length never exceeds the declared limit" fails for negative limits. -/
theorem c7_counterexample :
    ¬ (∀ l : Int, declaredLimit (some "-2") = some l →
        ((handleFilesChange (some "-2") ([10, 20, 30] : List Nat)).length : Int) ≤ l) :=
  fun h => absurd (h (-2) (by decide)) (by decide)

/-- Claim C7 as amended: with the attach control's limit attribute `"1"`,
any non-empty selection keeps exactly the first file and the preview
renders exactly one entry; and the pending set's length never exceeds the
declared limit whenever that limit is non-negative (with 1 as the default
when the attribute is absent). -/
theorem c7_amended_limit_bound (files : List Nat) (attachControlLimit : Option String)
    (k : Int) :
    (attachControlLimit = some "1" → files ≠ [] →
      handleFilesChange (fileInputLimitAttr attachControlLimit) files = files.take 1 ∧
      renderPreviewCount (handleFilesChange (fileInputLimitAttr attachControlLimit) files)
        = 1) ∧
    (declaredLimit attachControlLimit = some k → 0 ≤ k →
      ((handleFilesChange (fileInputLimitAttr attachControlLimit) files).length : Int) ≤ k) ∧
    (attachControlLimit = none →
      (handleFilesChange (fileInputLimitAttr attachControlLimit) files).length ≤ 1) := by
  refine ⟨?_, ?_, ?_⟩
  · intro hattr hne
    subst hattr
    refine ⟨rfl, ?_⟩
    have hsel : handleFilesChange (fileInputLimitAttr (some "1")) files = files.take 1 := rfl
    rw [hsel]
    cases files with
    | nil => exact absurd rfl hne
    | cons a l => simp [renderPreviewCount]
  · intro hk hk0
    cases hattr : attachControlLimit with
    | none =>
      subst hattr
      have h1 : k = 1 := by
        simp [declaredLimit] at hk
        omega
      subst h1
      have hsel : handleFilesChange (fileInputLimitAttr none) files = files.take 1 := rfl
      rw [hsel]
      have := List.length_take_le 1 files
      omega
    | some s =>
      subst hattr
      by_cases hs : s = ""
      · subst hs
        simp [declaredLimit, jsParseInt] at hk
      · have hfi : fileInputLimitAttr (some s) = some s := by
          simp [fileInputLimitAttr, hs]
        have hparse : jsParseInt s = some k := by
          simpa [declaredLimit] using hk
        have hsel : handleFilesChange (fileInputLimitAttr (some s)) files
            = jsSliceTo files k := by
          rw [hfi]
          unfold handleFilesChange
          simp only [hs, if_false, hparse]
        rw [hsel]
        unfold jsSliceTo
        rw [if_neg (by omega)]
        have := List.length_take_le k.toNat files
        omega
  · intro hattr
    subst hattr
    have hsel : handleFilesChange (fileInputLimitAttr none) files = files.take 1 := rfl
    rw [hsel]
    exact List.length_take_le 1 files

/-- Witness for C7 as amended, at the scenario input: limit attribute
`"1"`, three selected files. -/
theorem c7_amended_witness :
    (handleFilesChange (fileInputLimitAttr (some "1")) ([10, 20, 30] : List Nat)
        = ([10, 20, 30] : List Nat).take 1 ∧
      renderPreviewCount
        (handleFilesChange (fileInputLimitAttr (some "1")) ([10, 20, 30] : List Nat)) = 1) ∧
    ((handleFilesChange (fileInputLimitAttr (some "1")) ([10, 20, 30] : List Nat)).length
        : Int) ≤ 1 := by
  obtain ⟨ha, hb, hc⟩ := c7_amended_limit_bound [10, 20, 30] (some "1") 1
  exact ⟨ha rfl (by decide), hb (by decide) (by decide)⟩

/-! ## Tooltip fixtures -/

/-- Label fixture for the pointer-move claims: a measured 93 × 10 box. -/
def c8Label : TooltipLabel :=
  { text := "t", visible := true, left := 0, top := 0, width := 93, height := 10 }

/-- Tracking state fixture for the pointer-move claims. -/
def c8State : TooltipState := { currentTarget := some 0, tooltipElement := some c8Label }

/-- Claim C8, counterexample: at pointer x = 200 in a 100px-wide viewport
with a 93px-wide label, the right-edge clamp puts the left coordinate at 2,
which the code keeps (only negative values are replaced by 5) — so the
claimed "floored at 5px" result (5) differs from the code's result (2). -/
theorem c8_counterexample :
    (handleMouseMove c8State 200 0 100 1000).tooltipElement =
      some { c8Label with left := 2, top := 5 } ∧
    (2 : Int) < 5 ∧
    claimedTooltipPos 200 0 93 10 100 1000 = (5, 5) ∧
    ¬ ((handleMouseMove c8State 200 0 100 1000).tooltipElement =
        some { c8Label with left := (claimedTooltipPos 200 0 93 10 100 1000).1,
                            top := (claimedTooltipPos 200 0 93 10 100 1000).2 }) := by
  decide

/-- Claim C8 as amended: while a target is tracked and the label exists,
the label is placed at the pointer plus (+10, −8), clamped at the
right/bottom edges as claimed, and a negative left/top is then replaced by
5 (values in `[0, 5)` are kept) — in particular both coordinates stay
non-negative, so the box never crosses the left/top viewport edges. -/
theorem c8_amended_clamp (s : TooltipState) (pageX pageY innerWidth innerHeight : Int)
    (t : Elem) (label : TooltipLabel)
    (hct : s.currentTarget = some t) (hlabel : s.tooltipElement = some label) :
    (handleMouseMove s pageX pageY innerWidth innerHeight).tooltipElement =
      some { label with
        left := amendedTooltipLeft pageX label.width innerWidth,
        top := amendedTooltipTop pageY label.height innerHeight } ∧
    0 ≤ amendedTooltipLeft pageX label.width innerWidth ∧
    0 ≤ amendedTooltipTop pageY label.height innerHeight := by
  refine ⟨?_, ?_, ?_⟩
  · unfold handleMouseMove
    simp only [hct, hlabel]
    rfl
  · unfold amendedTooltipLeft
    dsimp only
    split_ifs <;> omega
  · unfold amendedTooltipTop
    dsimp only
    split_ifs <;> omega

/-- Witness for C8 as amended, at a pointer position where no clamp is
needed. -/
theorem c8_amended_witness :
    (handleMouseMove c8State 15 20 1000 800).tooltipElement =
      some { c8Label with
        left := amendedTooltipLeft 15 c8Label.width 1000,
        top := amendedTooltipTop 20 c8Label.height 800 } ∧
    0 ≤ amendedTooltipLeft 15 c8Label.width 1000 ∧
    0 ≤ amendedTooltipTop 20 c8Label.height 800 :=
  c8_amended_clamp c8State 15 20 1000 800 0 c8Label rfl rfl

/-- Claim C9: a pointer-leave whose related target is not a DOM node, or
one whose related target is not a descendant of the tracked target, hides
the label (visibility `hidden`; the label element is kept, not removed) and
clears the tracked target. -/
theorem c9_mouseout_hides (env : TooltipDomEnv) (s : TooltipState) (related : Option Elem)
    (h : related = none ∨ ∃ t r, s.currentTarget = some t ∧ related = some r ∧
      env.nodeContains t r = false) :
    (handleMouseOut env s related).tooltipElement =
      s.tooltipElement.map (fun label => { label with visible := false }) ∧
    (handleMouseOut env s related).currentTarget = none := by
  rcases h with h | ⟨t, r, hct, hr, hc⟩
  · subst h
    exact ⟨rfl, rfl⟩
  · subst hr
    unfold handleMouseOut
    simp only [hct]
    rw [hc]
    simp [hideTooltip]

/-- Label fixture for the pointer-leave claim. -/
def c9Label : TooltipLabel :=
  { text := "hint", visible := true, left := 1, top := 2, width := 30, height := 12 }

/-- Tracking state fixture for the pointer-leave claim. -/
def c9State : TooltipState := { currentTarget := some 0, tooltipElement := some c9Label }

/-- Environment fixture for the pointer-leave claim: `Node.contains` is
identity, so element 1 is not a descendant of tracked element 0. -/
def c9Env : TooltipDomEnv :=
  { hasTargetClass := fun _ => true, attrVal := fun _ => some "hint",
    nodeContains := fun t r => t == r }

/-- Witness for C9: leaving tracked element 0 towards non-descendant 1
hides the label and clears tracking. -/
theorem c9_witness :
    (handleMouseOut c9Env c9State (some 1)).tooltipElement =
      c9State.tooltipElement.map (fun label => { label with visible := false }) ∧
    (handleMouseOut c9Env c9State (some 1)).currentTarget = none :=
  c9_mouseout_hides c9Env c9State (some 1) (Or.inr ⟨0, 1, rfl, rfl, rfl⟩)

/-- Claim C10: a mouseover whose target is not an element, or whose target
does not itself carry both the marker class and a non-empty value of the
data attribute, leaves the manager's entire state unchanged — the
environment (hence any qualifying ancestor) is irrelevant because only the
event target is examined. -/
theorem c10_mouseover_frame (env : TooltipDomEnv) (s : TooltipState) (target : Option Elem)
    (h : target = none ∨ ∃ t, target = some t ∧
      (env.hasTargetClass t = false ∨ env.attrVal t = none ∨ env.attrVal t = some "")) :
    handleMouseOver env s target = s := by
  rcases h with h | ⟨t, ht, hcase⟩
  · subst h
    rfl
  · subst ht
    unfold handleMouseOver
    rcases hcase with hc | ha | ha
    · simp [hc]
    · simp [ha]
    · cases hcls : env.hasTargetClass t
      · simp [hcls]
      · simp [hcls, ha]

/-- Environment fixture for C10: element 1 carries the marker class and a
non-empty attribute and contains element 0 — a qualifying ancestor of the
event target. -/
def c10Env : TooltipDomEnv :=
  { hasTargetClass := fun t => t == 1,
    attrVal := fun t => if t == 1 then some "tip" else none,
    nodeContains := fun t r => t == 1 && r == 0 }

/-- Idle manager state fixture for C10. -/
def c10State : TooltipState := { currentTarget := none, tooltipElement := none }

/-- Witness for C10: hovering element 0 (no marker class of its own, though
its ancestor 1 qualifies) changes nothing. -/
theorem c10_witness : handleMouseOver c10Env c10State (some 0) = c10State :=
  c10_mouseover_frame c10Env c10State (some 0) (Or.inr ⟨0, rfl, Or.inl rfl⟩)
